import Mathlib

/-!
Shallow embedding of the a11y-test-mate core (element candidate scorer,
login verifier, crawl scheduler) together with proofs about the claims of
the specification.  Definitions are translated from the TypeScript sources
`src/enhanced-local-selenium.ts` (the "local" tester) and the unnamed
source `part_002` (class `EnhancedBrowserStackA11yTester`, the "BS"
tester).  Browser-driver effects (DOM reads, navigation) are modelled by
explicit inputs: a page is the data the code reads from it, a site maps a
URL string to the page the driver would land on (navigation to an unmapped
URL throws), and the driver's current URL is the URL just navigated to
(the model has no redirects).
-/

namespace A11y

/-- A parsed URL, as the pieces of the JS `URL` object that the sources
read (`protocol` keeps the trailing colon, `search` keeps the leading `?`,
`hash` keeps the leading `#`, matching JS). -/
structure Url where
  protocol : String := "https:"
  hostname : String
  pathname : String := "/"
  search : String := ""
  hash : String := ""
deriving DecidableEq, Repr

/-- JS `url.origin`. -/
def Url.origin (u : Url) : String := u.protocol ++ "//" ++ u.hostname

/-- JS `url.href`: the serialized URL. -/
def Url.href (u : Url) : String :=
  u.protocol ++ "//" ++ u.hostname ++ u.pathname ++ u.search ++ u.hash

/-- Does `hay` contain `needle` as a contiguous sublist? -/
def charsContain : List Char → List Char → Bool
  | [], needle => needle.isEmpty
  | c :: t, needle => needle.isPrefixOf (c :: t) || charsContain t needle

/-- JS `s.includes(sub)` (substring test). -/
def strIncludes (s sub : String) : Bool := charsContain s.data sub.data

/-- JS `s.split('?')[0].split('#')[0]`, as used in `verifyUrlChange` to
strip query parameters and fragment from a URL string: the prefix before
the first `?`, then the prefix of that before the first `#`. -/
def urlBase (s : String) : String :=
  let q := String.mk (s.data.takeWhile (fun c => c != '?'))
  String.mk (q.data.takeWhile (fun c => c != '#'))

/-! ## Element candidate scorer (`scoreElement`, identical in both files) -/

/-- The data `scoreElement` reads from the driver for one candidate.
`labelResult` is the outcome of the label-lookup script (which already
lowercases; `Except.error` = the script threw, `.ok ""` = no label),
`placeholderResult` the outcome of `getAttribute('placeholder')`
(`.ok none` = attribute absent), `sizeResult` the outcome of `getSize()`.
`inputsOnPage` is the length of `findElements(By.css('input'))`;
`findInputsThrows` models that call throwing (stale page), which is the
only throw point not wrapped in an inner `try` — it hits the outer
`catch`.  `elementPos` is the candidate's actual index among the page's
inputs; the source never manages to read it (see `scoreElement` below). -/
structure ScoreInput where
  elementType : String
  selector : String
  findInputsThrows : Bool := false
  inputsOnPage : Nat := 0
  elementPos : Nat := 0
  labelResult : Except Unit String := .ok ""
  placeholderResult : Except Unit (Option String) := .ok none
  sizeResult : Except Unit (Nat × Nat) := .error ()

/-- `scoreElement` from both sources.  The whole body is wrapped in
`try ... catch { return 1 }`; the label/placeholder/size reads each sit in
their own inner `try` whose `catch` just skips that bonus.

The positional check in the source is
`allInputs.findIndex(async (el) => ...)`: the predicate is an `async`
function, so it returns a `Promise`, which is always truthy — JS
`findIndex` therefore returns `0` whenever `allInputs` is non-empty and
`-1` when it is empty, never the candidate's real index.  The embedding
reproduces exactly that value. -/
def scoreElement (inp : ScoreInput) : Nat :=
  if inp.findInputsThrows then 1
  else
    let score := 10
    let score := score + (if strIncludes inp.selector "type=" then 20 else 0)
    let score := score + (if strIncludes inp.selector "name" then 15 else 0)
    let score := score + (if strIncludes inp.selector "id" then 15 else 0)
    let elementIndex : Int := if inp.inputsOnPage = 0 then -1 else 0
    let score := score +
      (if inp.elementType = "username" ∧ elementIndex ≤ 1 then 10 else 0)
    let score := score +
      (if inp.elementType = "password" ∧ elementIndex ≤ 2 then 10 else 0)
    let score := score +
      (match inp.labelResult with
       | .error _ => 0
       | .ok label =>
         if label ≠ "" then
           5 + (if inp.elementType = "username" ∧
                   (strIncludes label "user" ∨ strIncludes label "email") then 10 else 0)
             + (if inp.elementType = "password" ∧ strIncludes label "pass" then 10 else 0)
             + (if inp.elementType = "submit" ∧
                   (strIncludes label "login" ∨ strIncludes label "sign") then 10 else 0)
         else 0)
    let score := score +
      (match inp.placeholderResult with
       | .error _ => 0
       | .ok none => 0
       | .ok (some ph) =>
         if ph ≠ "" then
           let pl := ph.toLower
           5 + (if inp.elementType = "username" ∧
                   (strIncludes pl "user" ∨ strIncludes pl "email") then 10 else 0)
             + (if inp.elementType = "password" ∧ strIncludes pl "pass" then 10 else 0)
         else 0)
    let score := score +
      (match inp.sizeResult with
       | .error _ => 0
       | .ok (w, h) => if 50 < w ∧ 20 < h then 5 else 0)
    score

/-! ## Login verifier

`part_002` (`EnhancedBrowserStackA11yTester`): `verifyLoginSuccess` runs
`verifyUrlChange`, `verifyDomChanges`, `verifyPageContent` and
`checkAbsenceOfLoginForm`; URL verification passing is alone sufficient,
otherwise 2 of the remaining 3 must pass.

`enhanced-local-selenium.ts` (`EnhancedLocalA11yTester`): after an early
return when the current URL contains the configured post-login URL, it
computes a weighted score (`calculateLoginSuccessScore`) over five
criteria and succeeds iff the score reaches 60. -/

/-- Outcome of one verification strategy, `{success, reason}` in the
source. -/
structure SignalOutcome where
  success : Bool
  reason : String
deriving DecidableEq, Repr

/-- The page state the verifier's DOM/content/error checks read.  Each
Boolean is the outcome of the corresponding selector-scan helper
(`checkLoggedInIndicators`, `checkUserElements`, `checkNavigationChanges`,
local-only `checkDashboardContent` and `checkForLoginErrors`);
`passwordFieldCount` is the length of
`findElements('input[type="password"]')`. -/
structure VerifierPage where
  hasLoggedInIndicators : Bool := false
  hasUserElements : Bool := false
  hasNavigationChanges : Bool := false
  pageTitle : String := ""
  bodyText : String := ""
  passwordFieldCount : Nat := 0
  hasDashboardContent : Bool := false
  loginErrorsFound : Bool := false
deriving DecidableEq, Repr

/-- Path substrings treated as signs of an authenticated area
(`postLoginPatterns` in `verifyUrlChange`, part_002). -/
def postLoginPatterns : List String :=
  ["/dashboard", "/home", "/profile", "/account", "/welcome", "/main",
   "/session", "/user", "/portal", "/app", "/admin", "/settings", "/overview"]

/-- `verifyUrlChange(loginUrl, postLoginUrl, currentUrl)` from part_002.
URLs arrive pre-parsed (the source parses them with `new URL`; the
`catch` for parse failures is unreachable for well-formed inputs). -/
def verifyUrlChange (loginUrl : Url) (postLoginUrl : Option String)
    (currentUrl : Url) : SignalOutcome :=
  let loginPath := loginUrl.pathname
  let currentPath := currentUrl.pathname
  let loginDomain := loginUrl.hostname
  let currentDomain := currentUrl.hostname
  if currentDomain ≠ loginDomain then
    ⟨true, "Redirected to different domain after login"⟩
  else if (match postLoginUrl with
           | some p => strIncludes currentUrl.href p || currentUrl.href == p
           | none => false) then
    ⟨true, "Redirected to expected post-login URL"⟩
  else if currentPath ≠ loginPath ∧
      ¬ (strIncludes currentPath "login" ∨ strIncludes currentPath "signin" ∨
         strIncludes currentPath "auth" ∨ strIncludes currentPath "register" ∨
         strIncludes currentPath "signup") then
    ⟨true, "Navigated away from login page"⟩
  else if postLoginPatterns.any (fun pat => strIncludes currentPath pat) then
    ⟨true, "URL contains post-login pattern"⟩
  else if currentUrl.href ≠ loginUrl.href then
    if urlBase loginUrl.href ≠ urlBase currentUrl.href then
      ⟨true, "URL path changed after login attempt"⟩
    else if strIncludes currentUrl.href "success" ∨ strIncludes currentUrl.href "token" ∨
        strIncludes currentUrl.href "authenticated" ∨ strIncludes currentUrl.href "logged" then
      ⟨true, "URL parameters suggest successful login"⟩
    else ⟨false, "Still on login page or similar URL"⟩
  else ⟨false, "Still on login page or similar URL"⟩

/-- `verifyDomChanges` from part_002. -/
def verifyDomChanges (pg : VerifierPage) : SignalOutcome :=
  if pg.hasLoggedInIndicators then ⟨true, "Found logout/user menu indicators"⟩
  else if pg.hasUserElements then ⟨true, "Found user-specific elements"⟩
  else if pg.hasNavigationChanges then ⟨true, "Navigation structure changed"⟩
  else ⟨false, "No DOM changes detected"⟩

/-- `verifyPageContent` from part_002. -/
def verifyPageContent (pg : VerifierPage) : SignalOutcome :=
  let titleWords := pg.pageTitle.toLower
  if strIncludes titleWords "dashboard" ∨ strIncludes titleWords "welcome" ∨
      strIncludes titleWords "home" ∨ strIncludes titleWords "profile" then
    ⟨true, "Page title indicates logged-in state"⟩
  else
    let bodyLower := pg.bodyText.toLower
    if ["welcome", "dashboard", "logged in", "signed in", "my account"].any
        (fun pat => strIncludes bodyLower pat) then
      ⟨true, "Page content indicates successful login"⟩
    else if ¬ (["login", "sign in", "username", "password"].any
        (fun pat => strIncludes bodyLower pat)) then
      ⟨true, "No login-related text found on page"⟩
    else ⟨false, "Page content suggests still on login flow"⟩

/-- `checkAbsenceOfLoginForm` (both files): no `input[type="password"]`
remains. -/
def checkAbsenceOfLoginForm (pg : VerifierPage) : Bool :=
  pg.passwordFieldCount = 0

/-- `verifyLoginSuccess` from part_002: URL verification is the primary
indicator; when it fails, 2 of the 3 remaining strategies must pass. -/
def verifyLoginSuccess (loginUrl : Url) (postLoginUrl : Option String)
    (currentUrl : Url) (pg : VerifierPage) : Bool :=
  let urlVerification := verifyUrlChange loginUrl postLoginUrl currentUrl
  let domVerification := verifyDomChanges pg
  let contentVerification := verifyPageContent pg
  let formAbsenceVerification := checkAbsenceOfLoginForm pg
  if urlVerification.success then true
  else
    let successCount :=
      ([domVerification.success, contentVerification.success,
        formAbsenceVerification].filter (fun b => b)).length
    decide (2 ≤ successCount)

/-- `calculateLoginSuccessScore` from `enhanced-local-selenium.ts` (the
caller passes `hasErrors: !hasErrors`, so the 20 points are for the
absence of errors). -/
def calculateLoginSuccessScore (urlChanged contentVerified hasErrors
    hasLoggedInIndicators loginFormAbsent : Bool) : Nat :=
  (if urlChanged then 30 else 0) +
  (if contentVerified then 25 else 0) +
  (if hasErrors then 20 else 0) +
  (if hasLoggedInIndicators then 15 else 0) +
  (if loginFormAbsent then 10 else 0)

/-- `verifyLoginSuccess` from `enhanced-local-selenium.ts`: an early
success when the current URL contains the configured post-login URL,
otherwise the weighted score with threshold 60.
(`contentVerified` is `verifyEnhancedContent` = user elements ∨ navigation
changes ∨ dashboard content.) -/
def verifyLoginSuccessLocal (loginUrl : Url) (postLoginUrl : Option String)
    (currentUrl : Url) (pg : VerifierPage) : Bool :=
  let urlChanged := currentUrl.href ≠ loginUrl.href
  if (match postLoginUrl with
      | some p => strIncludes currentUrl.href p
      | none => false) then true
  else
    let contentVerified :=
      pg.hasUserElements || pg.hasNavigationChanges || pg.hasDashboardContent
    let hasErrors := pg.loginErrorsFound
    let successScore := calculateLoginSuccessScore urlChanged contentVerified
      (!hasErrors) pg.hasLoggedInIndicators (checkAbsenceOfLoginForm pg)
    decide (60 ≤ successScore)

/-! ## Crawl scheduler (`getInternalLinks`, `testCurrentPage`, `crawlAndTest`)

Both files implement the same `crawlAndTest` loop; they differ only in
`getInternalLinks`.  The loop is embedded once, parameterized by the
link-discovery function, and instantiated for each file. -/

/-- What the crawler reads from one loaded page: the `href` attributes of
its `a[href]` elements in document order (already resolved against the
document base, as `new URL(href, baseUrl)` does), and whether the axe
analysis of the page succeeds (`testCurrentPage` catches an analysis
failure and records a failed result). -/
structure Page where
  anchors : List Url := []
  analyzeOk : Bool := true
deriving DecidableEq, Repr

/-- `A11yTestResult`, restricted to the fields the claims speak about
(`url`, `success`, `error`); violations/passes/incomplete/timestamps are
opaque pass-through data. -/
structure A11yResult where
  url : String
  success : Bool
  error : Option String := none
deriving DecidableEq, Repr

/-- A site: which page the driver lands on for each exact URL string.
`none` means `driver.get(url)` throws (unreachable address).  The model
has no redirects: `getCurrentUrl()` after `driver.get(u)` returns `u`. -/
def lookupPage (site : List (String × Page)) (u : String) : Option Page :=
  (site.find? (fun p => p.1 == u)).map (fun p => p.2)

/-- `testCurrentPage`: runs the axe analysis on the current page and
always returns a result — its own `try/catch` converts an analysis
failure into a `success: false` result carrying the error message. -/
def testCurrentPage (p : Page) (currentUrl : String) : A11yResult :=
  if p.analyzeOk then ⟨currentUrl, true, none⟩
  else ⟨currentUrl, false, some "analysis failed"⟩

/-- The failed result `crawlAndTest`'s per-page `catch` block records when
navigating to a frontier URL throws. -/
def navFailResult (u : String) : A11yResult :=
  ⟨u, false, some "navigation failed"⟩

/-- Case-insensitive test for the non-page file extensions excluded by
the local `getInternalLinks` (`/\.(pdf|jpg|jpeg|png|gif|css|js|ico)$/i`). -/
def hasDocExt (s : String) : Bool :=
  let l := s.toLower
  [".pdf", ".jpg", ".jpeg", ".png", ".gif", ".css", ".js", ".ico"].any
    (fun e => l.endsWith e)

/-- The link-accumulation loop of the local `getInternalLinks`: keep
same-hostname links, normalize to `protocol + '//' + hostname + pathname`,
and push unless already collected or matching an exclusion. -/
def collectInternalLinksLocal (base : Url) (anchors : List Url) : List String :=
  anchors.foldl (fun links u =>
    if u.hostname == base.hostname then
      let normalizedUrl := u.protocol ++ "//" ++ u.hostname ++ u.pathname
      if !(links.contains normalizedUrl) &&
          !(strIncludes normalizedUrl "#") &&
          !(strIncludes normalizedUrl "mailto:") &&
          !(strIncludes normalizedUrl "tel:") &&
          !(hasDocExt normalizedUrl) then
        links ++ [normalizedUrl]
      else links
    else links) []

/-- `getInternalLinks` from `enhanced-local-selenium.ts`: the collected
links, capped by `links.slice(0, 20)`. -/
def getInternalLinksLocal (base : Url) (anchors : List Url) : List String :=
  (collectInternalLinksLocal base anchors).take 20

/-- JS `Array.from(new Set(links))`: deduplicate keeping the first
occurrence of each element. -/
def dedupKeepFirst (l : List String) : List String :=
  l.foldl (fun acc x => if acc.contains x then acc else acc ++ [x]) []

/-- `getInternalLinks` from part_002: keep same-origin links by their full
`href` (query and fragment included), then deduplicate. -/
def getInternalLinksBS (base : Url) (anchors : List Url) : List String :=
  dedupKeepFirst (anchors.foldl (fun links u =>
    if u.origin == base.origin then links ++ [u.href] else links) [])

/-- The `while (queue.length > 0 && results.length < maxPages)` loop of
`crawlAndTest`.  One fuel unit per iteration; `none` means the fuel ran
out before the loop exited (the source has no such bound, so a completed
session is exactly a `some` run).  Each iteration: pop, skip if visited,
mark visited, navigate (a throw hits the `catch`, which records
`navFailResult` and continues), test, and when the budget is not yet
reached discover links from the current page (base `crawlStartUrl`),
enqueueing those not visited. -/
def crawlLoop (site : List (String × Page))
    (getLinks : Url → List Url → List String) (crawlStartUrl : Url)
    (maxPages : Nat) :
    Nat → List String → List String → List A11yResult →
    Option (List A11yResult)
  | 0, _, _, _ => none
  | fuel + 1, queue, visited, results =>
    match queue with
    | [] => some results
    | nextUrl :: rest =>
      if maxPages ≤ results.length then some results
      else if visited.contains nextUrl then
        crawlLoop site getLinks crawlStartUrl maxPages fuel rest visited results
      else
        let visited' := nextUrl :: visited
        match lookupPage site nextUrl with
        | some page =>
          let results' := results ++ [testCurrentPage page nextUrl]
          let queue' :=
            if results'.length < maxPages then
              rest ++ (getLinks crawlStartUrl page.anchors).filter
                (fun l => !(visited'.contains l))
            else rest
          crawlLoop site getLinks crawlStartUrl maxPages fuel queue' visited' results'
        | none =>
          crawlLoop site getLinks crawlStartUrl maxPages fuel rest visited'
            (results ++ [navFailResult nextUrl])

/-- `loginConfig` (the fields `crawlAndTest` reads; URLs pre-parsed). -/
structure LoginConfig where
  loginUrl : Url
  username : String := ""
  password : String := ""
  postLoginUrl : Option Url := none
deriving DecidableEq, Repr

/-- The value `login()` resolves to: `{success, currentUrl?}`. -/
structure LoginResult where
  success : Bool
  currentUrl : Option Url := none
deriving DecidableEq, Repr

/-- Crawl start resolution inside `crawlAndTest` (run only after a
successful login when a login is configured): an explicit `postLoginUrl`
that is not the placeholder default wins, else the URL captured by
`login()`, else the caller's start URL. -/
def resolveCrawlStart (loginConfig : Option LoginConfig)
    (loginResult : LoginResult) (startUrl : Url) : Url :=
  match loginConfig with
  | none => startUrl
  | some cfg =>
    match cfg.postLoginUrl with
    | some p =>
      if p.href ≠ "https://example.com/dashboard" then p
      else loginResult.currentUrl.getD startUrl
    | none => loginResult.currentUrl.getD startUrl

/-- `crawlAndTest(startUrl, maxPages)` (both files), with the driver
effects made explicit: `site` models navigation, `loginResult` the value
`this.login()` resolves to when a login is configured.  A configured
login whose result is unsuccessful throws before anything is tested; the
initial navigation is outside any `try` and so also throws on failure;
the starting page is then tested unconditionally, its links seed the
queue, and the loop runs.  `fuel` bounds the loop for the embedding; a
run that exhausts it did not complete. -/
def crawlAndTest (site : List (String × Page))
    (getLinks : Url → List Url → List String)
    (loginConfig : Option LoginConfig) (loginResult : LoginResult)
    (startUrl : Url) (maxPages : Nat) (fuel : Nat) :
    Except String (List A11yResult) :=
  if loginConfig.isSome && !loginResult.success then
    .error "Login failed - cannot proceed with crawling"
  else
    let crawlStartUrl := resolveCrawlStart loginConfig loginResult startUrl
    match lookupPage site crawlStartUrl.href with
    | none => .error "navigation failed"
    | some page =>
      let firstResult := testCurrentPage page crawlStartUrl.href
      let visited := [firstResult.url]
      let queue := (getLinks crawlStartUrl page.anchors).filter
        (fun l => !(visited.contains l))
      match crawlLoop site getLinks crawlStartUrl maxPages fuel queue visited
          [firstResult] with
      | some res => .ok res
      | none => .error "crawl did not finish within fuel"

/-- The local tester's `crawlAndTest`. -/
def crawlAndTestLocal (site : List (String × Page))
    (loginConfig : Option LoginConfig) (loginResult : LoginResult)
    (startUrl : Url) (maxPages fuel : Nat) : Except String (List A11yResult) :=
  crawlAndTest site getInternalLinksLocal loginConfig loginResult startUrl
    maxPages fuel

/-- The BrowserStack tester's `crawlAndTest` (part_002). -/
def crawlAndTestBS (site : List (String × Page))
    (loginConfig : Option LoginConfig) (loginResult : LoginResult)
    (startUrl : Url) (maxPages fuel : Nat) : Except String (List A11yResult) :=
  crawlAndTest site getInternalLinksBS loginConfig loginResult startUrl
    maxPages fuel

/-- Modelled from the spec: the normalization the claims' dedup property
is stated with — "normalization strips query and fragment" (spec §3,
`CrawlFrontierEntry`).  Applied to a URL string it keeps everything
before the first `?` or `#`. -/
def specNormalize (s : String) : String := urlBase s

/-! ## Concrete inputs for counterexamples and witnesses -/

/-- Plain page URL on `ex.com`. -/
def exPage (p : String) : Url := { hostname := "ex.com", pathname := p }

/-- Root URL `https://ex.com/`. -/
def exRoot : Url := { hostname := "ex.com" }

/-- A one-page site: the root with no links. -/
def c1site : List (String × Page) := [("https://ex.com/", {})]

/-- The result sequence the budget-0 crawl of `c1site` produces. -/
def c1run : List A11yResult := [{ url := "https://ex.com/", success := true }]

/-- Login URL for the verifier examples. -/
def c2login : Url := { hostname := "login.ex.com", pathname := "/login" }

/-- Post-submit URL on a different domain but same path. -/
def c2current : Url := { hostname := "app.ex.com", pathname := "/login" }

/-- A page state where every non-URL signal fails: a visible login error,
no logged-in indicators, no user elements, and a password field still
present. -/
def c2page : VerifierPage := { passwordFieldCount := 1, loginErrorsFound := true }

/-- A site whose root links to the same path under two query strings;
both pages exist. -/
def c3site : List (String × Page) :=
  [("https://ex.com/",
    { anchors := [{ hostname := "ex.com", pathname := "/a", search := "?x=1" },
                  { hostname := "ex.com", pathname := "/a", search := "?x=2" }] }),
   ("https://ex.com/a?x=1", {}),
   ("https://ex.com/a?x=2", {})]

/-- The result sequence of the `c3site` crawl with budget 3. -/
def c3run : List A11yResult :=
  [{ url := "https://ex.com/", success := true },
   { url := "https://ex.com/a?x=1", success := true },
   { url := "https://ex.com/a?x=2", success := true }]

/-- A chain site: the root links to `/a`, which links to `/b`, then `/c`,
then `/d` — so `/d` is only reachable at link depth 4 from the start. -/
def c4site : List (String × Page) :=
  [("https://ex.com/", { anchors := [exPage "/a"] }),
   ("https://ex.com/a", { anchors := [exPage "/b"] }),
   ("https://ex.com/b", { anchors := [exPage "/c"] }),
   ("https://ex.com/c", { anchors := [exPage "/d"] }),
   ("https://ex.com/d", {})]

/-- A site whose root carries ten same-origin links, with the two
content-keyword pages the spec's priority scoring ranks highest
(`/about`, `/services`) last in document order. -/
def c5site : List (String × Page) :=
  [("https://ex.com/",
    { anchors := [exPage "/m1", exPage "/m2", exPage "/m3", exPage "/m4",
                  exPage "/m5", exPage "/m6", exPage "/m7", exPage "/m8",
                  exPage "/about", exPage "/services"] }),
   ("https://ex.com/m1", {}),
   ("https://ex.com/m2", {})]

/-- A login configuration for the fail-fast witness. -/
def c6cfg : LoginConfig := { loginUrl := { hostname := "ex.com", pathname := "/login" } }

/-- The scorer input the positional-bonus claim is about: role
`username`, the broad selector `input`, a page with ten inputs, the
candidate sitting at document position `p` among them (0-based). -/
def c9input (p : Nat) : ScoreInput :=
  { elementType := "username", selector := "input", inputsOnPage := 10,
    elementPos := p }

/-- The result sequence of the `c4site` crawl with budget 10. -/
def c4run : List A11yResult :=
  [{ url := "https://ex.com/", success := true },
   { url := "https://ex.com/a", success := true },
   { url := "https://ex.com/b", success := true },
   { url := "https://ex.com/c", success := true },
   { url := "https://ex.com/d", success := true }]

/-- The result sequence of the `c5site` crawl with budget 3. -/
def c5run : List A11yResult :=
  [{ url := "https://ex.com/", success := true },
   { url := "https://ex.com/m1", success := true },
   { url := "https://ex.com/m2", success := true }]

/-- The scorer input for the top-level-throw witness. -/
def c8input : ScoreInput :=
  { elementType := "username", selector := "input", findInputsThrows := true }

/-! ## Helper lemmas -/

/-- `testCurrentPage` reports the URL it was invoked on. -/
theorem testCurrentPage_url (p : Page) (u : String) :
    (testCurrentPage p u).url = u := by
  unfold testCurrentPage; split <;> rfl

/-- Loop invariant for the page budget: a completed loop never grows the
result sequence beyond `max results.length maxPages`. -/
theorem crawlLoop_length_le (site : List (String × Page))
    (getLinks : Url → List Url → List String) (cs : Url) (mp : Nat) :
    ∀ fuel queue visited results res,
      crawlLoop site getLinks cs mp fuel queue visited results = some res →
      res.length ≤ max results.length mp := by
  intro fuel
  induction fuel with
  | zero => intro q v results res h; simp [crawlLoop] at h
  | succ n ih =>
    intro q v results res h
    cases q with
    | nil =>
      simp only [crawlLoop, Option.some.injEq] at h
      subst h; exact Nat.le_max_left _ _
    | cons nextUrl rest =>
      simp only [crawlLoop] at h
      split at h
      · rename_i hb
        simp only [Option.some.injEq] at h
        subst h; exact Nat.le_max_left _ _
      · rename_i hb
        split at h
        · exact ih _ _ _ _ h
        · split at h
          · rename_i page hl
            have := ih _ _ _ _ h
            simp only [List.length_append, List.length_cons, List.length_nil] at this ⊢
            omega
          · rename_i hl
            have := ih _ _ _ _ h
            simp only [List.length_append, List.length_cons, List.length_nil] at this ⊢
            omega

/-- Loop invariant for exact-URL dedup: if the already-recorded URLs are
distinct and all marked visited, the completed loop's URLs stay
distinct. -/
theorem crawlLoop_nodup_urls (site : List (String × Page))
    (getLinks : Url → List Url → List String) (cs : Url) (mp : Nat) :
    ∀ fuel queue visited results res,
      crawlLoop site getLinks cs mp fuel queue visited results = some res →
      (results.map (fun r => r.url)).Nodup →
      (∀ r ∈ results, r.url ∈ visited) →
      (res.map (fun r => r.url)).Nodup := by
  intro fuel
  induction fuel with
  | zero => intro q v results res h _ _; simp [crawlLoop] at h
  | succ n ih =>
    intro q v results res h hnd hmem
    cases q with
    | nil =>
      simp only [crawlLoop, Option.some.injEq] at h
      subst h; exact hnd
    | cons nextUrl rest =>
      simp only [crawlLoop] at h
      split at h
      · simp only [Option.some.injEq] at h
        subst h; exact hnd
      · rename_i hb
        split at h
        · exact ih _ _ _ _ h hnd hmem
        · rename_i hv
          have hvmem : nextUrl ∉ v := by
            intro hc
            exact hv (by simpa using hc)
          split at h
          · rename_i page hl
            refine ih _ _ _ _ h ?_ ?_
            · simp only [List.map_append, List.map_cons, List.map_nil,
                testCurrentPage_url]
              rw [List.nodup_append]
              refine ⟨hnd, List.nodup_singleton _, ?_⟩
              intro a ha hb'
              simp only [List.mem_singleton] at hb'
              subst hb'
              obtain ⟨r, hr, hru⟩ := List.mem_map.mp ha
              exact hvmem (hru ▸ hmem r hr)
            · intro r hr
              rcases List.mem_append.mp hr with hr | hr
              · exact List.mem_cons_of_mem _ (hmem r hr)
              · simp only [List.mem_singleton] at hr
                subst hr
                simp [testCurrentPage_url]
          · rename_i hl
            refine ih _ _ _ _ h ?_ ?_
            · simp only [List.map_append, List.map_cons, List.map_nil,
                navFailResult]
              rw [List.nodup_append]
              refine ⟨hnd, List.nodup_singleton _, ?_⟩
              intro a ha hb'
              simp only [List.mem_singleton] at hb'
              subst hb'
              obtain ⟨r, hr, hru⟩ := List.mem_map.mp ha
              exact hvmem (hru ▸ hmem r hr)
            · intro r hr
              rcases List.mem_append.mp hr with hr | hr
              · exact List.mem_cons_of_mem _ (hmem r hr)
              · simp only [List.mem_singleton] at hr
                subst hr
                simp [navFailResult]

/-! ## Claims -/

/-- C1 (counterexample): with page budget 0 the crawl still completes
with one result — the starting page is tested before the budget is ever
consulted — so the claimed bound `length ≤ N` fails at `N = 0`. -/
theorem C1_counterexample :
    crawlAndTestBS c1site none { success := true } exRoot 0 5 = Except.ok c1run ∧
    ¬ (c1run.length ≤ 0) :=
  ⟨rfl, by decide⟩

/-- C1 (amended): for every page budget N, a completed crawl session's
result sequence has length at most `max 1 N` — the starting page is
always tested, and the loop respects the budget thereafter. -/
theorem C1_budget_amended (site : List (String × Page))
    (getLinks : Url → List Url → List String) (lc : Option LoginConfig)
    (lr : LoginResult) (start : Url) (mp fuel : Nat) (res : List A11yResult)
    (h : crawlAndTest site getLinks lc lr start mp fuel = Except.ok res) :
    res.length ≤ max 1 mp := by
  simp only [crawlAndTest] at h
  split at h
  · simp at h
  · split at h
    · simp at h
    · rename_i page hl
      split at h
      · rename_i r hr
        simp only [Except.ok.injEq] at h
        subst h
        have := crawlLoop_length_le _ _ _ _ _ _ _ _ _ hr
        simpa using this
      · simp at h

/-- C1 (witness): the amended bound applied at a concrete one-page site
with budget 1. -/
theorem C1_budget_amended_witness :
    crawlAndTest c1site getInternalLinksBS none { success := true } exRoot 1 5 =
      Except.ok c1run ∧ c1run.length ≤ max 1 1 :=
  ⟨rfl, C1_budget_amended c1site getInternalLinksBS none { success := true }
    exRoot 1 5 c1run rfl⟩

/-- C2 (counterexample): in the local tester's verifier a post-submit URL
on a different domain only contributes 30 of the 60 points needed, so
with every other signal failing the overall verdict is failure — the
URL-change signal alone does not force success there. -/
theorem C2_counterexample :
    c2current.hostname ≠ c2login.hostname ∧
    verifyLoginSuccessLocal c2login none c2current c2page = false :=
  ⟨by decide, rfl⟩

/-- C2 (amended): in the part_002 verifier, whenever the post-submit
URL's domain differs from the login URL's domain the URL-change signal
passes and the overall verdict is success, regardless of every other
signal. -/
theorem C2_url_primary (loginUrl : Url) (postLoginUrl : Option String)
    (currentUrl : Url) (pg : VerifierPage)
    (h : currentUrl.hostname ≠ loginUrl.hostname) :
    verifyLoginSuccess loginUrl postLoginUrl currentUrl pg = true := by
  have hu : (verifyUrlChange loginUrl postLoginUrl currentUrl).success = true := by
    simp only [verifyUrlChange]
    rw [if_pos h]
  simp [verifyLoginSuccess, hu]

/-- C2 (witness): the amended rule applied at a concrete cross-domain
redirect with every other signal failing. -/
theorem C2_url_primary_witness :
    c2current.hostname ≠ c2login.hostname ∧
    verifyLoginSuccess c2login none c2current c2page = true :=
  ⟨by decide, C2_url_primary c2login none c2current c2page (by decide)⟩

/-- C3 (counterexample): the part_002 crawl keeps query strings in
frontier entries and deduplicates by exact URL, so `/a?x=1` and `/a?x=2`
are both tested — two results whose normalized (query-stripped) URLs
coincide. -/
theorem C3_counterexample :
    crawlAndTestBS c3site none { success := true } exRoot 3 10 = Except.ok c3run ∧
    ¬ (c3run.map (fun r => specNormalize r.url)).Nodup :=
  ⟨rfl, by decide⟩

/-- C3 (amended): a completed crawl session never tests the same exact
URL string twice — the visited set deduplicates by exact URL, not by the
spec's query/fragment-stripping normalization. -/
theorem C3_nodup_exact_urls (site : List (String × Page))
    (getLinks : Url → List Url → List String) (lc : Option LoginConfig)
    (lr : LoginResult) (start : Url) (mp fuel : Nat) (res : List A11yResult)
    (h : crawlAndTest site getLinks lc lr start mp fuel = Except.ok res) :
    (res.map (fun r => r.url)).Nodup := by
  simp only [crawlAndTest] at h
  split at h
  · simp at h
  · split at h
    · simp at h
    · rename_i page hl
      split at h
      · rename_i r hr
        simp only [Except.ok.injEq] at h
        subst h
        exact crawlLoop_nodup_urls _ _ _ _ _ _ _ _ _ hr (by simp) (by simp)
      · simp at h

/-- C3 (witness): the amended dedup property applied at a concrete
crawl of the local tester. -/
theorem C3_nodup_exact_urls_witness :
    crawlAndTest c1site getInternalLinksLocal none { success := true } exRoot 2 5 =
      Except.ok c1run ∧ (c1run.map (fun r => r.url)).Nodup :=
  ⟨rfl, C3_nodup_exact_urls c1site getInternalLinksLocal none { success := true }
    exRoot 2 5 c1run rfl⟩

/-- C4: the crawl loop tracks no depth at all — on a chain site where
`/d` is only reachable through four successive links from the start page,
`/d` is enqueued and tested, so the claimed "depth ≤ 3, deeper links
discarded at enqueue time" invariant does not hold in the code. -/
theorem C4_depth_not_limited :
    crawlAndTestBS c4site none { success := true } exRoot 10 30 = Except.ok c4run ∧
    c4run.map (fun r => r.url) =
      ["https://ex.com/", "https://ex.com/a", "https://ex.com/b",
       "https://ex.com/c", "https://ex.com/d"] :=
  ⟨rfl, rfl⟩

/-- C5: the frontier is a FIFO queue that is never re-sorted — with ten
links on the start page of which the spec's priority scoring ranks
`/about` and `/services` highest (listed last in document order), a
budget-3 crawl tests the first two links in document order and never
reaches the high-priority ones. -/
theorem C5_fifo_not_priority :
    crawlAndTestBS c5site none { success := true } exRoot 3 30 = Except.ok c5run ∧
    c5run.map (fun r => r.url) =
      ["https://ex.com/", "https://ex.com/m1", "https://ex.com/m2"] ∧
    "https://ex.com/about" ∉ c5run.map (fun r => r.url) :=
  ⟨rfl, rfl, by decide⟩

/-- C6: with a login configuration present and an unsuccessful login
result, `crawlAndTest` throws the explicit login-failure error before
testing any page, so no result sequence is produced. -/
theorem C6_login_failfast (site : List (String × Page))
    (getLinks : Url → List Url → List String) (cfg : LoginConfig)
    (lr : LoginResult) (start : Url) (mp fuel : Nat)
    (h : lr.success = false) :
    crawlAndTest site getLinks (some cfg) lr start mp fuel =
      Except.error "Login failed - cannot proceed with crawling" := by
  simp [crawlAndTest, h]

/-- C6 (witness): the fail-fast rule applied at a concrete configured
login whose verification failed. -/
theorem C6_login_failfast_witness :
    ({ success := false } : LoginResult).success = false ∧
    crawlAndTest c1site getInternalLinksBS (some c6cfg) { success := false }
      exRoot 5 5 = Except.error "Login failed - cannot proceed with crawling" :=
  ⟨rfl, C6_login_failfast c1site getInternalLinksBS c6cfg { success := false }
    exRoot 5 5 rfl⟩

/-- C7: when navigating to a dequeued, not-yet-visited frontier URL
throws (unmapped in the site), the loop appends a `success = false`
result carrying the error message and proceeds with the rest of the
frontier — a per-page failure never aborts the session. -/
theorem C7_page_failure_isolated (site : List (String × Page))
    (getLinks : Url → List Url → List String) (cs : Url) (mp fuel : Nat)
    (nextUrl : String) (rest visited : List String)
    (results : List A11yResult)
    (h1 : results.length < mp)
    (h2 : visited.contains nextUrl = false)
    (h3 : lookupPage site nextUrl = none) :
    crawlLoop site getLinks cs mp (fuel + 1) (nextUrl :: rest) visited results =
      crawlLoop site getLinks cs mp fuel rest (nextUrl :: visited)
        (results ++ [navFailResult nextUrl]) ∧
    (navFailResult nextUrl).success = false ∧
    (navFailResult nextUrl).error = some "navigation failed" := by
  refine ⟨?_, rfl, rfl⟩
  simp only [crawlLoop]
  rw [if_neg (by omega), if_neg (by simpa using h2), h3]

/-- C7 (witness): the isolation rule applied at a concrete unreachable
frontier entry. -/
theorem C7_page_failure_isolated_witness :
    crawlLoop [] getInternalLinksBS exRoot 1 1 ["https://ex.com/x"] [] [] =
      crawlLoop [] getInternalLinksBS exRoot 1 0 [] ["https://ex.com/x"]
        [navFailResult "https://ex.com/x"] ∧
    (navFailResult "https://ex.com/x").success = false ∧
    (navFailResult "https://ex.com/x").error = some "navigation failed" :=
  C7_page_failure_isolated [] getInternalLinksBS exRoot 1 0 "https://ex.com/x"
    [] [] [] (by decide) rfl rfl

/-- C8: when the unguarded top-level driver call inside `scoreElement`
throws (stale element, detached node), the function returns the score 1
instead of propagating the error, for every candidate and role. -/
theorem C8_score_error_yields_one (inp : ScoreInput)
    (h : inp.findInputsThrows = true) : scoreElement inp = 1 := by
  simp [scoreElement, h]

/-- C8 (witness): the throw-to-score-1 rule applied at a concrete stale
candidate. -/
theorem C8_score_error_yields_one_witness :
    c8input.findInputsThrows = true ∧ scoreElement c8input = 1 :=
  ⟨rfl, C8_score_error_yields_one c8input rfl⟩

/-- C9: on a page with ten inputs, a `username` candidate receives the
+10 positional bonus (total 20 for selector `input`) at every document
position `p`, including far beyond the first two — the `findIndex` call
uses an `async` predicate, whose `Promise` return value is always truthy,
so the computed index is 0 for any non-empty input list and the
candidate's real position is never consulted. -/
theorem C9_positional_bonus_ignores_position :
    ∀ p : Nat, scoreElement (c9input p) = 20 :=
  fun _ => rfl

/-- C10: the local tester's `getInternalLinks` is exactly the collected
same-origin, normalized, deduplicated link list truncated by
`slice(0, 20)`, so it never returns more than 20 links. -/
theorem C10_links_capped_at_20 (base : Url) (anchors : List Url) :
    getInternalLinksLocal base anchors =
      (collectInternalLinksLocal base anchors).take 20 ∧
    (getInternalLinksLocal base anchors).length ≤ 20 := by
  refine ⟨rfl, ?_⟩
  simp only [getInternalLinksLocal, List.length_take]
  omega

end A11y
